import Mathlib

/-!
Verification of the segment-based video/audio re-synchronization core of the
video-translator repository.  The Python sources (`sync_video.py`,
`generate_audio.py`, `translate_subtitles.py`) are shallowly embedded below:
pure computations become Lean functions over `ℚ` (the Python code computes in
floating point; all the operations involved here — division, `min`, sums of
millisecond integers divided by 1000 — are modelled with exact rational
arithmetic), subprocess invocations become explicit command lists plus an
outcome oracle (the Python code never inspects a subprocess result), and the
per-segment loop becomes a structurally recursive function.
-/

/-- One record of the timing JSON consumed by `smart_video_sync`
(`sync_video.py`, lines 139-146): original-subtitle interval and the duration
of the matching replacement-audio segment.  `content` is irrelevant to the
sync algorithm and omitted. -/
structure TimingEntry where
  subtitle_start : ℚ
  subtitle_end : ℚ
  subtitle_duration : ℚ
  audio_duration : ℚ
  deriving DecidableEq, Repr

/-- The scale-factor computation of `smart_video_sync` (`sync_video.py`,
lines 149-152):
`duration_factor = audio_duration / subtitle_duration if subtitle_duration > 0 else 1.0`
followed by `duration_factor = min(duration_factor, max_slowdown)`. -/
def duration_factor (subtitle_duration audio_duration max_slowdown : ℚ) : ℚ :=
  let f := if 0 < subtitle_duration then audio_duration / subtitle_duration else 1
  min f max_slowdown

/-- Exit status of an external `ffmpeg` subprocess.  The Python code launches
subprocesses with `subprocess.run` and never inspects the returned
`CompletedProcess`, so the embedding carries the outcome only to show it is
discarded. -/
inductive ProcResult
  | ok
  | err
  deriving DecidableEq, Repr

/-- `extract_video_segment` (`sync_video.py`, lines 27-42): runs `ffmpeg` and
returns `output_path` unconditionally — the subprocess result is dropped. -/
def extract_video_segment (r : ProcResult) (output_path : String) : String :=
  output_path

/-- `adjust_video_segment` (`sync_video.py`, lines 59-73): runs `ffmpeg` with a
`setpts` filter and returns `output_path` unconditionally — the subprocess
result is dropped. -/
def adjust_video_segment (r : ProcResult) (output_path : String) : String :=
  output_path

/-- The per-segment descriptor appended by the loop of `smart_video_sync`
(`sync_video.py`, lines 163-168): `{"index": i, "path": adjusted_path,
"duration": audio_duration, "factor": duration_factor}`. -/
structure SegInfo where
  index : ℕ
  path : String
  duration : ℚ
  factor : ℚ
  deriving DecidableEq, Repr

/-- The per-segment loop of `smart_video_sync` (`sync_video.py`, lines
139-168): for every timing record, in input order, compute the clamped scale
factor, extract the source interval, rescale it, and append a descriptor.
`procs` is the oracle of subprocess outcomes (two invocations per segment);
the code never consults it. -/
def process_segments (timing : List TimingEntry) (procs : ℕ → ProcResult)
    (max_slowdown : ℚ) : List SegInfo :=
  timing.enum.map fun p =>
    let i := p.1
    let seg := p.2
    let factor := duration_factor seg.subtitle_duration seg.audio_duration max_slowdown
    let video_segment_path :=
      extract_video_segment (procs (2 * i)) ("video_" ++ toString i ++ ".mp4")
    let adjusted_path :=
      adjust_video_segment (procs (2 * i + 1)) ("adjusted_" ++ toString i ++ ".mp4")
    { index := i, path := adjusted_path, duration := seg.audio_duration, factor := factor }

/-- `create_segment_list` (`sync_video.py`, lines 75-86): the concatenation
manifest keeps, in list order, exactly the segments whose file exists; each
kept entry contributes its `path` and its declared `duration`. -/
def create_segment_list (file_exists : String → Bool) (segments : List SegInfo) :
    List SegInfo :=
  segments.filter fun s => file_exists s.path

/-- The run statistics printed by `smart_video_sync` (`sync_video.py`, lines
181-189): total segment count, average factor, maximum factor.  No other
field (in particular no skipped-segment count) exists. -/
structure Stats where
  total_segments : ℕ
  avg_factor : ℚ
  max_factor : ℚ
  deriving DecidableEq, Repr

/-- Statistics computation of `smart_video_sync` (`sync_video.py`, lines
182-184): average and maximum are `0` when there are no segments. -/
def compute_stats (segments : List SegInfo) : Stats :=
  let n := segments.length
  { total_segments := n
  , avg_factor := if 0 < n then (segments.map (fun s => s.factor)).sum / (n : ℚ) else 0
  , max_factor :=
      match segments.map (fun s => s.factor) with
      | [] => 0
      | f :: fs => fs.foldl max f }

/-- Result of one `smart_video_sync` run: the segment descriptors handed to
the assembler, the printed statistics, and the returned Boolean. -/
structure RunOutcome where
  segments : List SegInfo
  stats : Stats
  success : Bool
  deriving DecidableEq, Repr

/-- `smart_video_sync` (`sync_video.py`, lines 123-191): processes every
timing record, concatenates, muxes, prints statistics and returns `True`
unconditionally — no branch of the function returns anything else and no
subprocess outcome is examined. -/
def smart_video_sync (timing : List TimingEntry) (procs : ℕ → ProcResult)
    (max_slowdown : ℚ) : RunOutcome :=
  let segments := process_segments timing procs max_slowdown
  { segments := segments, stats := compute_stats segments, success := true }

/-- `main` (`sync_video.py`, lines 204-217): exit status is `0` when
`smart_video_sync` returns `True`, `1` otherwise (or on an exception; the
embedded run is total, mirroring the fact that the sync loop itself raises
nothing for a well-formed timing list). -/
def main_exit (timing : List TimingEntry) (procs : ℕ → ProcResult)
    (max_slowdown : ℚ) : ℕ :=
  if (smart_video_sync timing procs max_slowdown).success then 0 else 1

/-- `add_audio_to_video` (`sync_video.py`, lines 105-121): the exact `ffmpeg`
command assembled by the muxer. -/
def add_audio_cmd (video_path audio_path output_path : String) : List String :=
  ["ffmpeg", "-i", video_path, "-i", audio_path, "-c:v", "copy", "-c:a", "aac",
   "-map", "0:v", "-map", "1:a", "-shortest", "-y", output_path]

/-- Semantics of the external `ffmpeg` muxer with respect to output duration:
with the `-shortest` flag the output is truncated to the shorter input stream;
without it `ffmpeg` keeps the longer stream. -/
def ffmpeg_mux_duration (cmd : List String) (video_dur audio_dur : ℚ) : ℚ :=
  if "-shortest" ∈ cmd then min video_dur audio_dur else max video_dur audio_dur

/-- Duration of the rescaled clip for one timing record: the extractor cuts
`[subtitle_start, subtitle_end]` (`sync_video.py`, line 156) and the `setpts`
rescale (`sync_video.py`, line 64) multiplies the clip duration by the scale
factor. -/
def rescaled_duration (seg : TimingEntry) (max_slowdown : ℚ) : ℚ :=
  duration_factor seg.subtitle_duration seg.audio_duration max_slowdown *
    (seg.subtitle_end - seg.subtitle_start)

/-- Claim C3 (confirmed): for a record with positive source and audio
durations and a positive slowdown ceiling, the computed scale factor is
exactly `min (audioDuration / sourceDuration) maxSlowdown`, is positive and is
at most `maxSlowdown`; at `sourceDuration = 1`, `audioDuration = 5`,
`maxSlowdown = 2` it is exactly `2`. -/
theorem scale_factor_clamped_bounds (sd ad ms : ℚ) (hsd : 0 < sd) (had : 0 < ad)
    (hms : 0 < ms) :
    duration_factor sd ad ms = min (ad / sd) ms ∧
    0 < duration_factor sd ad ms ∧
    duration_factor sd ad ms ≤ ms ∧
    duration_factor 1 5 2 = 2 := by
  have hq : 0 < ad / sd := div_pos had hsd
  refine ⟨?_, ?_, ?_, ?_⟩
  · simp [duration_factor, if_pos hsd]
  · simpa [duration_factor, if_pos hsd] using lt_min hq hms
  · simpa [duration_factor, if_pos hsd] using min_le_right (ad / sd) ms
  · norm_num [duration_factor]

/-- Witness for C3 at `sourceDuration = 2`, `audioDuration = 3`,
`maxSlowdown = 2` (Scenario A of the specification). -/
theorem scale_factor_clamped_bounds_witness :
    duration_factor 2 3 2 = min ((3 : ℚ) / 2) 2 ∧
    0 < duration_factor 2 3 2 ∧
    duration_factor 2 3 2 ≤ 2 ∧
    duration_factor 1 5 2 = 2 :=
  scale_factor_clamped_bounds 2 3 2 (by norm_num) (by norm_num) (by norm_num)

/-- Claim C1 (counterexample): a segment with `sourceDuration = 0` and
`audioDuration = 3` produces scale factor `1` silently — no
`ZeroDurationSegment` (or any) error exists in the code, contradicting the
claim that the computation never defaults to `1.0` for such a segment. -/
theorem zero_duration_defaults_to_one :
    duration_factor 0 3 2 = 1 ∧
    (smart_video_sync [⟨0, 1, 0, 3⟩] (fun _ => ProcResult.ok) 2).success = true := by
  constructor
  · norm_num [duration_factor]
  · rfl

/-- Claim C1 (amended): whenever `sourceDuration ≤ 0` the scale factor
silently defaults to `1.0` (then clamped, giving `min 1 maxSlowdown`), and no
error is raised. -/
theorem zero_duration_silent_default (sd ad ms : ℚ) (h : sd ≤ 0) :
    duration_factor sd ad ms = min 1 ms := by
  simp [duration_factor, if_neg (not_lt.mpr h)]

/-- Witness for the amended C1 at `sourceDuration = 0`, `audioDuration = 3`,
`maxSlowdown = 2`. -/
theorem zero_duration_silent_default_witness :
    duration_factor 0 3 2 = min 1 2 :=
  zero_duration_silent_default 0 3 2 (by norm_num)

/-- The declared durations written into the concatenation manifest are exactly
the `audio_duration` fields of the timing records, in order. -/
theorem process_segments_map_duration (timing : List TimingEntry)
    (procs : ℕ → ProcResult) (ms : ℚ) :
    (process_segments timing procs ms).map (fun s => s.duration)
      = timing.map (fun s => s.audio_duration) := by
  conv_rhs => rw [← List.enum_map_snd timing]
  rw [process_segments, List.map_map, List.map_map]
  rfl

/-- Claim C2 (counterexample): for the segment `sourceStart = 0`,
`sourceEnd = 1`, `sourceDuration = 1`, `audioDuration = 5` with
`maxSlowdown = 2`, the manifest declares duration `5` while the clamped
rescale produces a clip of duration `2`; the discrepancy `3` exceeds any
sub-frame tolerance such as one frame interval at 24 fps. -/
theorem declared_duration_mismatch_when_clamped :
    (smart_video_sync [⟨0, 1, 1, 5⟩] (fun _ => ProcResult.ok) 2).segments.map
        (fun s => s.duration) = [5] ∧
    rescaled_duration ⟨0, 1, 1, 5⟩ 2 = 2 ∧
    ¬ |(5 : ℚ) - 2| ≤ 1 / 24 := by
  refine ⟨rfl, ?_, by norm_num⟩
  norm_num [rescaled_duration, duration_factor]

/-- Claim C2 (amended): when no segment is clamped (consistent source fields,
positive source duration, `audioDuration / sourceDuration ≤ maxSlowdown`),
every declared per-segment duration equals the rescaled clip duration exactly
(tolerance `0`), and the total declared duration equals the sum of the
rescaled-segment durations; when a segment is clamped the declared duration
exceeds the rescaled one by `audioDuration - maxSlowdown * sourceDuration`,
which is unbounded. -/
theorem declared_equals_rescaled_when_unclamped (timing : List TimingEntry)
    (procs : ℕ → ProcResult) (ms : ℚ)
    (h : ∀ s ∈ timing, s.subtitle_duration = s.subtitle_end - s.subtitle_start ∧
      0 < s.subtitle_duration ∧ s.audio_duration / s.subtitle_duration ≤ ms) :
    (smart_video_sync timing procs ms).segments.map (fun s => s.duration)
      = timing.map (fun s => rescaled_duration s ms) ∧
    ((smart_video_sync timing procs ms).segments.map (fun s => s.duration)).sum
      = (timing.map (fun s => rescaled_duration s ms)).sum := by
  have key : (smart_video_sync timing procs ms).segments.map (fun s => s.duration)
      = timing.map (fun s => rescaled_duration s ms) := by
    show (process_segments timing procs ms).map (fun s => s.duration) = _
    rw [process_segments_map_duration]
    refine List.map_congr_left fun s hs => ?_
    obtain ⟨h1, h2, h3⟩ := h s hs
    have hne : s.subtitle_duration ≠ 0 := ne_of_gt h2
    rw [rescaled_duration, duration_factor, ← h1]
    simp only [if_pos h2, min_eq_left h3]
    field_simp
  exact ⟨key, by rw [key]⟩

/-- Witness for the amended C2: one unclamped segment (Scenario A,
`sourceDuration = 2`, `audioDuration = 3`, `maxSlowdown = 2`). -/
theorem declared_equals_rescaled_when_unclamped_witness :
    (smart_video_sync [⟨0, 2, 2, 3⟩] (fun _ => ProcResult.ok) 2).segments.map
        (fun s => s.duration)
      = [⟨0, 2, 2, 3⟩].map (fun s => rescaled_duration s (2 : ℚ)) ∧
    ((smart_video_sync [⟨0, 2, 2, 3⟩] (fun _ => ProcResult.ok) 2).segments.map
        (fun s => s.duration)).sum
      = ([⟨0, 2, 2, 3⟩].map (fun s => rescaled_duration s (2 : ℚ))).sum :=
  declared_equals_rescaled_when_unclamped [⟨0, 2, 2, 3⟩] (fun _ => ProcResult.ok) 2
    (by intro s hs; simp at hs; subst hs; norm_num)

/-- Claim C4 (counterexample): with a single segment whose `ffmpeg`
subprocesses all fail, the run outcome is identical to the all-success run:
the segment is still listed and counted, nothing records the failure, and
the statistics carry no skipped-segment count. -/
theorem failed_segment_still_counted :
    (smart_video_sync [⟨0, 2, 2, 3⟩] (fun _ => ProcResult.err) 2)
      = (smart_video_sync [⟨0, 2, 2, 3⟩] (fun _ => ProcResult.ok) 2) ∧
    (smart_video_sync [⟨0, 2, 2, 3⟩] (fun _ => ProcResult.err) 2).segments.length = 1 ∧
    (smart_video_sync [⟨0, 2, 2, 3⟩] (fun _ => ProcResult.err) 2).stats.total_segments = 1 :=
  ⟨rfl, rfl, rfl⟩

/-- Claim C4 (amended): extraction/rescale subprocess outcomes are never
inspected — the run outcome is independent of them, every segment (failing or
not) is appended and counted in `total_segments`, and the statistics contain
only total count, average factor and maximum factor, never a skip count. -/
theorem subprocess_outcomes_ignored (timing : List TimingEntry)
    (procs procs2 : ℕ → ProcResult) (ms : ℚ) :
    smart_video_sync timing procs ms = smart_video_sync timing procs2 ms ∧
    (smart_video_sync timing procs ms).segments.length = timing.length ∧
    (smart_video_sync timing procs ms).stats.total_segments = timing.length := by
  refine ⟨rfl, ?_, ?_⟩ <;>
    simp [smart_video_sync, process_segments, compute_stats]

/-- Claim C5 (counterexample): an empty timing sequence makes the run report
success (`True`, process exit status `0`) instead of a fatal
`TimingDataCorrupt` failure. -/
theorem empty_timing_reports_success :
    (smart_video_sync [] (fun _ => ProcResult.ok) 2).success = true ∧
    main_exit [] (fun _ => ProcResult.ok) 2 = 0 :=
  ⟨rfl, rfl⟩

/-- Claim C5 (amended): on an empty timing sequence the run completes as a
success — `smart_video_sync` returns `True`, the exit status is `0`, and the
statistics report zero segments with average and maximum factor `0`;
concatenation and muxing are still invoked (their subprocess failures go
unchecked), so no fatal state exists. -/
theorem empty_timing_run (procs : ℕ → ProcResult) (ms : ℚ) :
    (smart_video_sync [] procs ms).success = true ∧
    (smart_video_sync [] procs ms).segments = [] ∧
    (smart_video_sync [] procs ms).stats = ⟨0, 0, 0⟩ ∧
    main_exit [] procs ms = 0 :=
  ⟨rfl, rfl, rfl, rfl⟩

/-- Claim C9 (confirmed): for every timing sequence and every assignment of
subprocess outcomes, `smart_video_sync` returns `True` and `main` exits with
status `0` — subprocess results are never checked. -/
theorem sync_always_returns_true (timing : List TimingEntry)
    (procs : ℕ → ProcResult) (ms : ℚ) :
    (smart_video_sync timing procs ms).success = true ∧
    main_exit timing procs ms = 0 :=
  ⟨rfl, rfl⟩

/-- Every element of `List.enumFrom n l` has first component at least `n`. -/
theorem enumFrom_fst_le (l : List α) : ∀ (n : ℕ) (p : ℕ × α),
    p ∈ List.enumFrom n l → n ≤ p.1 := by
  induction l with
  | nil => intro n p hp; simp [List.enumFrom] at hp
  | cons a t ih =>
    intro n p hp
    rcases List.mem_cons.mp hp with h | h
    · subst h; exact le_refl n
    · exact Nat.le_of_succ_le (ih (n + 1) p h)

/-- The first components of `List.enumFrom n l` are strictly increasing. -/
theorem enumFrom_pairwise_fst_lt (l : List α) : ∀ (n : ℕ),
    List.Pairwise (fun p q => p.1 < q.1) (List.enumFrom n l) := by
  induction l with
  | nil => intro n; simp [List.enumFrom]
  | cons a t ih =>
    intro n
    refine List.Pairwise.cons ?_ (ih (n + 1))
    intro q hq
    exact Nat.lt_of_succ_le (enumFrom_fst_le t (n + 1) q hq)

/-- Claim C7 (confirmed): the concatenation manifest lists segments with
strictly increasing original indices — for every adjacent pair (i, i+1) of
the input sequence present in the manifest, segment i's entry precedes
segment i+1's; no reordering or interleaving occurs. -/
theorem segments_spliced_in_input_order (timing : List TimingEntry)
    (procs : ℕ → ProcResult) (ms : ℚ) (file_exists : String → Bool) :
    List.Pairwise (fun a b => a.index < b.index)
      (create_segment_list file_exists (smart_video_sync timing procs ms).segments) := by
  apply List.Pairwise.filter
  show List.Pairwise _ (process_segments timing procs ms)
  rw [process_segments, List.pairwise_map]
  exact enumFrom_pairwise_fst_lt timing 0

/-- Claim C6 (confirmed): the muxer command carries the `-shortest` flag, so
the muxed output duration is exactly the minimum of the assembled video
duration and the replacement audio duration. -/
theorem mux_output_is_min_of_streams (v a o : String) (video_dur audio_dur : ℚ) :
    ffmpeg_mux_duration (add_audio_cmd v a o) video_dur audio_dur
      = min video_dur audio_dur := by
  have hm : "-shortest" ∈ add_audio_cmd v a o := by simp [add_audio_cmd]
  simp [ffmpeg_mux_duration, hm]

/-- Outcome of the per-subtitle translation retry loop: the content finally
assigned, the number of translation attempts made, and the number of sleeps
performed (each sleep is the fixed `time.sleep(1)`, one second). -/
structure RetryOutcome where
  content : String
  attempts : ℕ
  sleeps : ℕ
  deriving DecidableEq, Repr

/-- The retry loop of `translate_srt_file` (`translate_subtitles.py`, lines
148-164): `for attempt in range(max_retries)`, on success assign the
translated (post-processed) text and break; on failure sleep one second if
attempts remain, otherwise warn and keep the original text.  `translate k`
is the outcome of attempt `k`: the text assigned on success (the composition
of `translator.translate` and `preprocess_text_for_tts`), or `none` when the
call raises. -/
def translate_retry_loop (translate : ℕ → Option String) (orig : String) :
    ℕ → ℕ → ℕ → RetryOutcome
  | 0, attempts, sleeps => ⟨orig, attempts, sleeps⟩
  | remaining + 1, attempts, sleeps =>
    match translate attempts with
    | some t => ⟨t, attempts + 1, sleeps⟩
    | none =>
      if remaining = 0 then ⟨orig, attempts + 1, sleeps⟩
      else translate_retry_loop translate orig remaining (attempts + 1) (sleeps + 1)

/-- `max_retries = 3` (`translate_subtitles.py`, line 149). -/
def max_retries : ℕ := 3

/-- One subtitle's translation with the retry policy of
`translate_srt_file`. -/
def translate_with_retry (translate : ℕ → Option String) (orig : String) :
    RetryOutcome :=
  translate_retry_loop translate orig max_retries 0 0

/-- Claim C8 (counterexample): with a translation call that fails on every
attempt, the loop stops after exactly `3` attempts (it never makes a fourth),
keeping the original text — the retry is bounded, not unbounded. -/
theorem translation_retry_stops_after_three :
    (translate_with_retry (fun _ => none) "orig").attempts = 3 ∧
    ¬ 4 ≤ (translate_with_retry (fun _ => none) "orig").attempts ∧
    (translate_with_retry (fun _ => none) "orig").content = "orig" :=
  ⟨rfl, by decide, rfl⟩

/-- Claim C8 (amended): a failing translation call is retried at most
`max_retries = 3` times with a fixed one-second sleep between consecutive
attempts (hence at most two sleeps); when every attempt fails the original
(untranslated) text is kept after exactly three attempts and two sleeps. -/
theorem translation_retry_bounded (translate : ℕ → Option String) (orig : String) :
    (translate_with_retry translate orig).attempts ≤ 3 ∧
    (translate_with_retry translate orig).sleeps ≤ 2 ∧
    ((∀ k < 3, translate k = none) →
      (translate_with_retry translate orig).content = orig ∧
      (translate_with_retry translate orig).attempts = 3 ∧
      (translate_with_retry translate orig).sleeps = 2) := by
  have hfail : (∀ k < 3, translate k = none) →
      translate_with_retry translate orig = ⟨orig, 3, 2⟩ := by
    intro hall
    have c0 := hall 0 (by norm_num)
    have c1 := hall 1 (by norm_num)
    have c2 := hall 2 (by norm_num)
    simp [translate_with_retry, max_retries, translate_retry_loop, c0, c1, c2]
  refine ⟨?_, ?_, fun hall => by rw [hfail hall]; exact ⟨rfl, rfl, rfl⟩⟩ <;>
    · unfold translate_with_retry max_retries
      rcases h0 : translate 0 with _ | t0 <;>
        rcases h1 : translate 1 with _ | t1 <;>
          rcases h2 : translate 2 with _ | t2 <;>
            simp [translate_retry_loop, h0, h1, h2]

/-- Witness for the amended C8: every attempt fails, the original text
`"hello"` is kept after three attempts and two sleeps. -/
theorem translation_retry_bounded_witness :
    (translate_with_retry (fun _ => none) "hello").content = "hello" ∧
    (translate_with_retry (fun _ => none) "hello").attempts = 3 ∧
    (translate_with_retry (fun _ => none) "hello").sleeps = 2 :=
  (translation_retry_bounded (fun _ => none) "hello").2.2 (fun _ _ => rfl)

/-- One subtitle as seen by `generate_german_audio` (`generate_audio.py`,
lines 87-130), together with the environment outcomes of its processing:
whether the TTS call raises (`tts_ok`), whether the generated file exists
(`file_exists`), and the generated segment's length in milliseconds as
reported by `pydub` (`len(segment_audio)`, an integer). -/
structure SubtitleInput where
  content : String
  start_secs : ℚ
  end_secs : ℚ
  tts_ok : Bool
  file_exists : Bool
  seg_duration_ms : ℕ
  deriving DecidableEq, Repr

/-- A subtitle contributes a timing record iff its stripped content is
nonempty (`generate_audio.py`, line 88), the TTS call succeeds (line 96) and
the segment file exists (line 105). -/
def emits_record (s : SubtitleInput) : Bool :=
  !s.content.trim.isEmpty && s.tts_ok && s.file_exists

/-- One record of the timing JSON written by `generate_german_audio`
(`generate_audio.py`, lines 112-121). -/
structure TimingRecord where
  index : ℕ
  subtitle_start : ℚ
  subtitle_end : ℚ
  subtitle_duration : ℚ
  audio_start : ℚ
  audio_end : ℚ
  audio_duration : ℚ
  content : String
  deriving DecidableEq, Repr

/-- The timing-emission loop of `generate_german_audio` (`generate_audio.py`,
lines 84-130): `current_position` starts at `0` milliseconds and advances by
the generated segment length only when a record is emitted; the emitted
fields divide the millisecond counters by `1000`. -/
def generate_timing_data : List (ℕ × SubtitleInput) → ℕ → List TimingRecord
  | [], _ => []
  | (i, s) :: rest, pos =>
    if emits_record s then
      { index := i
      , subtitle_start := s.start_secs
      , subtitle_end := s.end_secs
      , subtitle_duration := s.end_secs - s.start_secs
      , audio_start := (pos : ℚ) / 1000
      , audio_end := ((pos + s.seg_duration_ms : ℕ) : ℚ) / 1000
      , audio_duration := (s.seg_duration_ms : ℚ) / 1000
      , content := s.content } :: generate_timing_data rest (pos + s.seg_duration_ms)
    else
      generate_timing_data rest pos

/-- The timing data produced by one `generate_german_audio` run over the
parsed subtitle list. -/
def generate_german_audio_timings (subs : List SubtitleInput) : List TimingRecord :=
  generate_timing_data subs.enum 0

/-- Contiguity of a record list on the replacement-audio timeline starting at
`s`: the first record starts at `s` and every record starts where the
previous one ends. -/
def Contiguous : ℚ → List TimingRecord → Prop
  | _, [] => True
  | s, r :: rs => r.audio_start = s ∧ Contiguous r.audio_end rs

/-- Every emitted record closes exactly: `audio_end = audio_start +
audio_duration` (exact over `ℚ`; the Python code divides the integer
millisecond counters by 1000). -/
theorem generate_timing_data_closes (l : List (ℕ × SubtitleInput)) : ∀ (pos : ℕ),
    ∀ r ∈ generate_timing_data l pos, r.audio_end = r.audio_start + r.audio_duration := by
  induction l with
  | nil => intro pos r hr; simp [generate_timing_data] at hr
  | cons p rest ih =>
    intro pos r hr
    obtain ⟨i, s⟩ := p
    rw [generate_timing_data] at hr
    by_cases he : emits_record s
    · rw [if_pos he] at hr
      rcases List.mem_cons.mp hr with h | h
      · subst h
        push_cast
        ring
      · exact ih (pos + s.seg_duration_ms) r h
    · rw [if_neg he] at hr
      exact ih pos r hr

/-- The records emitted from position `pos` are contiguous starting at
`pos / 1000`. -/
theorem generate_timing_data_contiguous (l : List (ℕ × SubtitleInput)) :
    ∀ (pos : ℕ), Contiguous ((pos : ℚ) / 1000) (generate_timing_data l pos) := by
  induction l with
  | nil => intro pos; simp [generate_timing_data, Contiguous]
  | cons p rest ih =>
    intro pos
    obtain ⟨i, s⟩ := p
    rw [generate_timing_data]
    by_cases he : emits_record s
    · rw [if_pos he]
      exact ⟨rfl, ih (pos + s.seg_duration_ms)⟩
    · rw [if_neg he]
      exact ih pos

/-- Claim C10 (confirmed): every timing record emitted by the
audio-generation stage satisfies `audio_end = audio_start + audio_duration`,
and the emitted records are contiguous on the replacement-audio timeline —
the first emitted record has `audio_start = 0` and each subsequent record
starts exactly where the previous one ends. -/
theorem audio_timing_records_contiguous (subs : List SubtitleInput) :
    (∀ r ∈ generate_german_audio_timings subs,
      r.audio_end = r.audio_start + r.audio_duration) ∧
    Contiguous 0 (generate_german_audio_timings subs) := by
  constructor
  · exact generate_timing_data_closes subs.enum 0
  · simpa using generate_timing_data_contiguous subs.enum 0
